import Mathlib

/-!
Verification development for the `biblioteca_ucc` lending system.

Shallow embedding conventions:
* timestamps and durations are whole days, modelled as `ℤ`; the wall clock
  (`datetime.now()`) becomes an explicit `now : ℤ` parameter;
* money is `ℚ`; Python's `round(x, 2)` becomes `round2`.  Every fine the
  policies can produce is an exact multiple of `1/2`, so no half-cent tie
  ever arises and the rounding convention is irrelevant;
* Python exceptions become `Except Unit`;
* `None`-able constructor arguments become `Option` fields.
-/

namespace BibliotecaUcc

/-- `round(x, 2)`: round to two decimal places. -/
def round2 (q : ℚ) : ℚ := ((round (100 * q) : ℤ) : ℚ) / 100

/-! ## recursos/recurso.py -/

/-- The three resource variants (`TipoRecurso`). -/
inductive TipoRecurso
  | libroImpreso
  | revista
  | recursoDigital
deriving DecidableEq, Repr

/-- A catalog resource; only the fields the loan/fine logic reads are kept
(`titulo`, `fecha_adquisicion`, `disponible`, and the variant determining
`obtener_duracion_prestamo_base`). -/
structure Recurso where
  tipo : TipoRecurso
  titulo : String
  fecha_adquisicion : ℤ
  disponible : Bool
deriving DecidableEq, Repr

/-- Base loan duration per variant: 14 / 7 / 30 days. -/
def Recurso.obtener_duracion_prestamo_base (r : Recurso) : ℤ :=
  match r.tipo with
  | .libroImpreso => 14
  | .revista => 7
  | .recursoDigital => 30

/-- `(datetime.now() - self._fecha_adquisicion).days` with day-granular time. -/
def Recurso.calcular_antiguedad_dias (r : Recurso) (now : ℤ) : ℤ :=
  now - r.fecha_adquisicion

/-- `cambiar_disponibilidad`. -/
def Recurso.cambiar_disponibilidad (r : Recurso) (disponible : Bool) : Recurso :=
  { r with disponible := disponible }

/-! ## estrategias/estrategia_multa.py -/

/-- `MultaEstudianteStrategy.calcular_multa`: $2.00/day, halved when the
resource is older than 1825 days, floored at $1.00, rounded to 2 decimals. -/
def MultaEstudianteStrategy.calcular_multa (now : ℤ) (dias_retraso : ℤ)
    (_costo_base_recurso : ℚ) (recurso : Recurso) : ℚ :=
  if dias_retraso ≤ 0 then 0
  else
    let multa : ℚ := 2 * (dias_retraso : ℚ)
    let antiguedad_dias := recurso.calcular_antiguedad_dias now
    let multa := if antiguedad_dias > 1825 then multa * (1 / 2) else multa
    let multa := max multa 1
    round2 multa

/-- `MultaDocenteStrategy.calcular_multa`: 3-day grace period, then $1.00 per
penalisable day, rounded to 2 decimals. -/
def MultaDocenteStrategy.calcular_multa (_now : ℤ) (dias_retraso : ℤ)
    (_costo_base_recurso : ℚ) (_recurso : Recurso) : ℚ :=
  if dias_retraso ≤ 0 then 0
  else
    let dias_penalizables := max 0 (dias_retraso - 3)
    if dias_penalizables = 0 then 0
    else round2 (1 * (dias_penalizables : ℚ))

/-- The accumulation loop of `MultaRecargadaStrategy.calcular_multa`:
`for dia in range(1, n + 1): multa += 3.0 + 0.5 * (dia - 1)`. -/
def multaAcumulada : ℕ → ℚ
  | 0 => 0
  | n + 1 => multaAcumulada n + (3 + (1 / 2) * (n : ℚ))

/-- `MultaRecargadaStrategy.calcular_multa`: progressive surcharge, day `d`
costs `3.00 + 0.50*(d-1)`, summed iteratively and rounded to 2 decimals. -/
def MultaRecargadaStrategy.calcular_multa (_now : ℤ) (dias_retraso : ℤ)
    (_costo_base_recurso : ℚ) (_recurso : Recurso) : ℚ :=
  if dias_retraso ≤ 0 then 0
  else round2 (multaAcumulada dias_retraso.toNat)

/-- `MultaPorAntiguedadRecursoStrategy.calcular_multa`: per-day rate from the
resource age in years (`antiguedad_dias / 365`, exact division — for integer
day counts the Python float comparison against 1 and 5 agrees with the exact
rational one): `< 1` year → 5.00, `< 5` years → 2.50, otherwise 1.00. -/
def MultaPorAntiguedadRecursoStrategy.calcular_multa (now : ℤ) (dias_retraso : ℤ)
    (_costo_base_recurso : ℚ) (recurso : Recurso) : ℚ :=
  if dias_retraso ≤ 0 then 0
  else
    let antiguedad_dias := recurso.calcular_antiguedad_dias now
    let antiguedad_anos : ℚ := (antiguedad_dias : ℚ) / 365
    let tarifa : ℚ :=
      if antiguedad_anos < 1 then 5
      else if antiguedad_anos < 5 then 5 / 2
      else 1
    round2 (tarifa * (dias_retraso : ℚ))

/-- The four concrete fine strategies. -/
inductive Estrategia
  | estudiante
  | docente
  | recargada
  | porAntiguedad
deriving DecidableEq, Repr

/-- Dynamic dispatch of `IEstrategiaDeMulta.calcular_multa`. -/
def Estrategia.calcular_multa (e : Estrategia) (now : ℤ) (dias_retraso : ℤ)
    (costo_base_recurso : ℚ) (recurso : Recurso) : ℚ :=
  match e with
  | .estudiante =>
      MultaEstudianteStrategy.calcular_multa now dias_retraso costo_base_recurso recurso
  | .docente =>
      MultaDocenteStrategy.calcular_multa now dias_retraso costo_base_recurso recurso
  | .recargada =>
      MultaRecargadaStrategy.calcular_multa now dias_retraso costo_base_recurso recurso
  | .porAntiguedad =>
      MultaPorAntiguedadRecursoStrategy.calcular_multa now dias_retraso costo_base_recurso recurso

/-- `obtener_nombre_estrategia` of each concrete strategy. -/
def Estrategia.obtener_nombre_estrategia (e : Estrategia) : String :=
  match e with
  | .estudiante => "Estrategia de Multa para Estudiantes"
  | .docente => "Estrategia de Multa para Docentes"
  | .recargada => "Estrategia de Multa Recargada (Progresiva)"
  | .porAntiguedad => "Estrategia de Multa por Antigüedad del Recurso"

/-! ## prestamos/prestamo_base.py -/

/-- `PrestamoBase`: resource, borrower, loan-start timestamp and an optional
fine strategy.  `self._costo_base` is set to `0.0` at construction and never
mutated, so it is not carried as a field. -/
structure PrestamoBase where
  recurso : Recurso
  usuario : String
  fecha_prestamo : ℤ
  estrategia_multa : Option Estrategia
deriving DecidableEq, Repr

/-- `establecer_estrategia_multa`: swap the bound strategy. -/
def PrestamoBase.establecer_estrategia_multa (p : PrestamoBase) (e : Estrategia) :
    PrestamoBase :=
  { p with estrategia_multa := some e }

/-- `PrestamoBase.obtener_duracion_dias`. -/
def PrestamoBase.obtener_duracion_dias (p : PrestamoBase) : ℤ :=
  p.recurso.obtener_duracion_prestamo_base

/-- `PrestamoBase.obtener_costo_base`: the fixed `self._costo_base = 0.0`. -/
def PrestamoBase.obtener_costo_base (_p : PrestamoBase) : ℚ := 0

/-- `PrestamoBase.obtener_fecha_devolucion`:
`self._fecha_prestamo + timedelta(days=self.obtener_duracion_dias())`. -/
def PrestamoBase.obtener_fecha_devolucion (p : PrestamoBase) : ℤ :=
  p.fecha_prestamo + p.obtener_duracion_dias

/-- `PrestamoBase.calcular_dias_retraso` at wall-clock time `now`. -/
def PrestamoBase.calcular_dias_retraso (p : PrestamoBase) (now : ℤ) : ℤ :=
  let fecha_devolucion := p.obtener_fecha_devolucion
  if now > fecha_devolucion then now - fecha_devolucion else 0

/-- `PrestamoBase.calcular_multa`: raises (`Except.error`) when no strategy is
bound, returns `0.0` when not late, otherwise delegates to the strategy with
`(dias_retraso, costo_base, recurso)`. -/
def PrestamoBase.calcular_multa (p : PrestamoBase) (now : ℤ) : Except Unit ℚ :=
  match p.estrategia_multa with
  | none => .error ()
  | some e =>
    let dias_retraso := p.calcular_dias_retraso now
    if dias_retraso ≤ 0 then .ok 0
    else .ok (e.calcular_multa now dias_retraso p.obtener_costo_base p.recurso)

/-! ## decoradores/decorador_prestamo.py -/

/-- The three concrete decorators with the extra data each carries. -/
inductive Decorador
  | notificacionSMS (numero_telefono : String)
  | reservaPreferencial (prioridad : ℤ)
  | seguroExtravio (monto_cobertura : ℚ)
deriving DecidableEq, Repr

/-- A loan chain: a `PrestamoBase` wrapped by zero or more decorators,
outermost first (`IPrestamo` with the decorator pattern). -/
inductive IPrestamo
  | base (p : PrestamoBase)
  | decorado (d : Decorador) (inner : IPrestamo)
deriving DecidableEq, Repr

/-- `obtener_duracion_dias` along the chain: only
`DecoradorReservaPreferencial` overrides it (adding `DIAS_ADICIONALES = 7`);
the other decorators fall back to the delegating default. -/
def IPrestamo.obtener_duracion_dias : IPrestamo → ℤ
  | .base p => p.obtener_duracion_dias
  | .decorado (.reservaPreferencial _) inner => inner.obtener_duracion_dias + 7
  | .decorado (.notificacionSMS _) inner => inner.obtener_duracion_dias
  | .decorado (.seguroExtravio _) inner => inner.obtener_duracion_dias

/-- `obtener_costo_base` along the chain: every concrete decorator overrides
it, adding its class constant (5.0 / 10.0 / 15.0). -/
def IPrestamo.obtener_costo_base : IPrestamo → ℚ
  | .base p => p.obtener_costo_base
  | .decorado (.notificacionSMS _) inner => inner.obtener_costo_base + 5
  | .decorado (.reservaPreferencial _) inner => inner.obtener_costo_base + 10
  | .decorado (.seguroExtravio _) inner => inner.obtener_costo_base + 15

/-- `obtener_fecha_devolucion` along the chain: no concrete decorator
overrides it, so every decorator uses `DecoradorPrestamo`'s delegating
default and the call lands on the `PrestamoBase`. -/
def IPrestamo.obtener_fecha_devolucion : IPrestamo → ℤ
  | .base p => p.obtener_fecha_devolucion
  | .decorado _ inner => inner.obtener_fecha_devolucion

/-- Builds the chain `ws.head (ws.tail ... (base p))`: wrappers listed
outermost first. -/
def mkChain (p : PrestamoBase) : List Decorador → IPrestamo
  | [] => .base p
  | d :: ds => .decorado d (mkChain p ds)

/-- Duration delta each wrapper contributes (`DIAS_ADICIONALES` for the
preferential reservation, none for the others). -/
def Decorador.deltaDuracion : Decorador → ℤ
  | .reservaPreferencial _ => 7
  | .notificacionSMS _ => 0
  | .seguroExtravio _ => 0

/-- Cost delta each wrapper contributes (`COSTO_SERVICIO_SMS`,
`COSTO_RESERVA_PREFERENCIAL`, `COSTO_SEGURO`). -/
def Decorador.deltaCosto : Decorador → ℚ
  | .notificacionSMS _ => 5
  | .reservaPreferencial _ => 10
  | .seguroExtravio _ => 15

/-! ## recursos/fabrica_recursos.py -/

/-- The keyword payload handed to `FabricaLibroImpreso.crear_recurso`;
`kwargs.get` yields `None` for absent keys, hence the `Option`s. -/
structure CamposLibro where
  titulo : Option String
  autor : Option String
  isbn : Option String
  fecha_adquisicion : Option ℤ
  numero_paginas : Option ℤ
  editorial : Option String
deriving DecidableEq, Repr

/-- Payload for `FabricaRevista.crear_recurso`. -/
structure CamposRevista where
  titulo : Option String
  autor : Option String
  isbn : Option String
  fecha_adquisicion : Option ℤ
  numero_edicion : Option ℤ
  mes_publicacion : Option String
deriving DecidableEq, Repr

/-- Payload for `FabricaRecursoDigital.crear_recurso`. -/
structure CamposDigital where
  titulo : Option String
  autor : Option String
  isbn : Option String
  fecha_adquisicion : Option ℤ
  formato : Option String
  tamano_mb : Option ℚ
  url_acceso : Option String
deriving DecidableEq, Repr

/-- A resource as actually produced by the factories: every constructor
argument except the defaulted acquisition date may be `None`. -/
inductive RecursoCreado
  | libro (titulo autor isbn : Option String) (fecha_adquisicion : ℤ)
      (numero_paginas : Option ℤ) (editorial : Option String)
  | revista (titulo autor isbn : Option String) (fecha_adquisicion : ℤ)
      (numero_edicion : Option ℤ) (mes_publicacion : Option String)
  | digital (titulo autor isbn : Option String) (fecha_adquisicion : ℤ)
      (formato : Option String) (tamano_mb : Option ℚ) (url_acceso : Option String)
deriving DecidableEq, Repr

/-- `FabricaLibroImpreso.crear_recurso`: copies each `kwargs.get(...)` value,
defaulting only `fecha_adquisicion` to `datetime.now()`.  No field is
validated and the construction never fails. -/
def FabricaLibroImpreso.crear_recurso (now : ℤ) (kwargs : CamposLibro) : RecursoCreado :=
  .libro kwargs.titulo kwargs.autor kwargs.isbn
    (kwargs.fecha_adquisicion.getD now) kwargs.numero_paginas kwargs.editorial

/-- `FabricaRevista.crear_recurso`. -/
def FabricaRevista.crear_recurso (now : ℤ) (kwargs : CamposRevista) : RecursoCreado :=
  .revista kwargs.titulo kwargs.autor kwargs.isbn
    (kwargs.fecha_adquisicion.getD now) kwargs.numero_edicion kwargs.mes_publicacion

/-- `FabricaRecursoDigital.crear_recurso`. -/
def FabricaRecursoDigital.crear_recurso (now : ℤ) (kwargs : CamposDigital) : RecursoCreado :=
  .digital kwargs.titulo kwargs.autor kwargs.isbn
    (kwargs.fecha_adquisicion.getD now) kwargs.formato kwargs.tamano_mb kwargs.url_acceso

/-- A concrete factory together with its keyword payload (the arguments of
one `agregar_recurso_con_fabrica` call). -/
inductive LlamadaFabrica
  | libro (kwargs : CamposLibro)
  | revista (kwargs : CamposRevista)
  | digital (kwargs : CamposDigital)
deriving DecidableEq, Repr

/-- `fabrica.registrar_recurso(**kwargs)`: calls `crear_recurso` and prints a
notification (the print is dropped). -/
def registrar_recurso (now : ℤ) : LlamadaFabrica → RecursoCreado
  | .libro kwargs => FabricaLibroImpreso.crear_recurso now kwargs
  | .revista kwargs => FabricaRevista.crear_recurso now kwargs
  | .digital kwargs => FabricaRecursoDigital.crear_recurso now kwargs

/-- `GestorDeInventario`: the `_recursos` list. -/
structure GestorDeInventario where
  recursos : List RecursoCreado
deriving DecidableEq, Repr

/-- `agregar_recurso_con_fabrica`: registers through the factory and appends
the created resource; returns the updated inventory and the resource. -/
def GestorDeInventario.agregar_recurso_con_fabrica (g : GestorDeInventario)
    (now : ℤ) (llamada : LlamadaFabrica) : GestorDeInventario × RecursoCreado :=
  let recurso := registrar_recurso now llamada
  ({ recursos := g.recursos ++ [recurso] }, recurso)

/-! ## facturacion.py -/

/-- `ItemFactura`. -/
structure ItemFactura where
  descripcion : String
  cantidad : ℤ
  valor_unitario : ℚ
  tipo : String
deriving DecidableEq, Repr

/-- `ItemFactura.subtotal = cantidad * valor_unitario`. -/
def ItemFactura.subtotal (it : ItemFactura) : ℚ :=
  (it.cantidad : ℚ) * it.valor_unitario

/-- The SERVICE item `_generar_items` emits for one decorator (the
`hasattr` probes map each decorator class to its constant and label). -/
def Decorador.itemServicio : Decorador → ItemFactura
  | .notificacionSMS numero_telefono =>
      ⟨"Servicio de Notificacion SMS a " ++ numero_telefono, 1, 5, "SERVICIO"⟩
  | .reservaPreferencial prioridad =>
      ⟨"Reserva Preferencial (Prioridad " ++ toString prioridad ++ ")", 1, 10, "SERVICIO"⟩
  | .seguroExtravio monto_cobertura =>
      ⟨"Seguro contra Extravio (Cobertura $" ++ toString monto_cobertura ++ ")", 1, 15, "SERVICIO"⟩

/-- The `while hasattr(..., 'prestamo_envuelto')` walk of `_generar_items`,
outermost decorator first, stopping at the `PrestamoBase`. -/
def itemsServicios : IPrestamo → List ItemFactura
  | .base _ => []
  | .decorado d inner => d.itemServicio :: itemsServicios inner

/-- `Factura._generar_items`: a RESOURCE item only when the base loan's cost
is positive (never, with the base cost fixed at 0), then one SERVICE item per
decorator in wrap order. -/
def generarItems (prestamo : IPrestamo) (prestamo_base : PrestamoBase) :
    List ItemFactura :=
  (if prestamo_base.obtener_costo_base > 0
    then [⟨"Prestamo Base del Recurso", 1, prestamo_base.obtener_costo_base, "RECURSO"⟩]
    else [])
  ++ itemsServicios prestamo

/-- `Factura`: invoice number, the chain and base loan it derives from, and
the item list (emission timestamp dropped — nothing reads it). -/
structure Factura where
  numero_factura : String
  prestamo : IPrestamo
  prestamo_base : PrestamoBase
  items : List ItemFactura
deriving DecidableEq, Repr

/-- The `Factura` constructor: stores its arguments and runs
`_generar_items`. -/
def Factura.nueva (numero_factura : String) (prestamo : IPrestamo)
    (prestamo_base : PrestamoBase) : Factura :=
  ⟨numero_factura, prestamo, prestamo_base, generarItems prestamo prestamo_base⟩

/-- `obtener_nombre_estrategia` reached through the base loan's optional
strategy; the `none` case (an `AttributeError` in Python) is unreachable in
`agregar_multa`, which only reads the name after `calcular_multa` succeeded. -/
def nombreEstrategia (o : Option Estrategia) : String :=
  match o with
  | some e => e.obtener_nombre_estrategia
  | none => ""

/-- The MULTA item `agregar_multa` appends for `dias_retraso` late days and
fine amount `multa`. -/
def itemMulta (dias_retraso : ℤ) (multa : ℚ) (nombre : String) : ItemFactura :=
  ⟨"Multa por " ++ toString dias_retraso ++ " dias de retraso (" ++ nombre ++ ")",
    1, multa, "MULTA"⟩

/-- `Factura.agregar_multa`: when the base loan is late, computes the fine
(which raises if no strategy is bound — before anything is appended) and
appends one MULTA item; returns the updated invoice and the fine, or the
untouched invoice and the propagated error. -/
def Factura.agregar_multa (f : Factura) (now : ℤ) : Factura × Except Unit ℚ :=
  let dias_retraso := f.prestamo_base.calcular_dias_retraso now
  if 0 < dias_retraso then
    match f.prestamo_base.calcular_multa now with
    | .error e => (f, .error e)
    | .ok multa =>
      let nombre := nombreEstrategia f.prestamo_base.estrategia_multa
      ({ f with items := f.items ++ [itemMulta dias_retraso multa nombre] }, .ok multa)
  else (f, .ok 0)

/-- `Factura.calcular_subtotal`. -/
def Factura.calcular_subtotal (f : Factura) : ℚ :=
  (f.items.map ItemFactura.subtotal).sum

/-- `Factura.calcular_iva`. -/
def Factura.calcular_iva (f : Factura) (porcentaje : ℚ) : ℚ :=
  f.calcular_subtotal * porcentaje

/-- `Factura.calcular_total`. -/
def Factura.calcular_total (f : Factura) (porcentaje_iva : ℚ) : ℚ :=
  f.calcular_subtotal + f.calcular_iva porcentaje_iva

/-! ## Concrete test data (used by counterexamples and witnesses) -/

/-- A printed book acquired at day 0. -/
def recursoW : Recurso := ⟨.libroImpreso, "Cien Anos de Soledad", 0, true⟩

/-- A base loan of `recursoW` starting at day 0 with the faculty strategy. -/
def pbDocente : PrestamoBase := ⟨recursoW, "Ana", 0, some .docente⟩

/-- A base loan of `recursoW` starting at day 0 with no strategy bound. -/
def pbSinEstrategia : PrestamoBase := ⟨recursoW, "Ana", 0, none⟩

/-- An invoice over the undecorated loan `pbDocente`. -/
def facturaDocente : Factura :=
  Factura.nueva "FACT-UCC-000001" (.base pbDocente) pbDocente

/-- An invoice over the undecorated loan `pbSinEstrategia`. -/
def facturaSinEstrategia : Factura :=
  Factura.nueva "FACT-UCC-000002" (.base pbSinEstrategia) pbSinEstrategia

/-- SMS, priority-reservation and insurance wrappers, in spec order. -/
def wsW : List Decorador :=
  [.notificacionSMS "3001234567", .reservaPreferencial 2, .seguroExtravio 100]

/-- The same three wrappers with the insurance applied in another position. -/
def wsW2 : List Decorador :=
  [.notificacionSMS "3001234567", .seguroExtravio 100, .reservaPreferencial 2]

/-! ## Helper lemmas -/

/-- `round2` fixes every rational that is an integer number of cents. -/
lemma round2_eq_self (q : ℚ) (k : ℤ) (hk : 100 * q = (k : ℚ)) : round2 q = q := by
  rw [round2, hk, round_intCast, div_eq_iff (by norm_num : (100 : ℚ) ≠ 0)]
  linarith

/-- Every concrete strategy returns `0` for `dias_retraso ≤ 0`. -/
lemma estrategia_multa_nonpos (e : Estrategia) (now dias : ℤ) (costo : ℚ)
    (r : Recurso) (h : dias ≤ 0) : e.calcular_multa now dias costo r = 0 := by
  cases e <;>
    simp [Estrategia.calcular_multa, MultaEstudianteStrategy.calcular_multa,
      MultaDocenteStrategy.calcular_multa, MultaRecargadaStrategy.calcular_multa,
      MultaPorAntiguedadRecursoStrategy.calcular_multa, h]

/-- Duration of a wrapped chain: base duration plus the wrappers' deltas. -/
lemma mkChain_duracion (p : PrestamoBase) (ws : List Decorador) :
    (mkChain p ws).obtener_duracion_dias
      = p.obtener_duracion_dias + (ws.map Decorador.deltaDuracion).sum := by
  induction ws with
  | nil => simp [mkChain, IPrestamo.obtener_duracion_dias]
  | cons d ds ih =>
    cases d <;>
      simp [mkChain, IPrestamo.obtener_duracion_dias, ih, Decorador.deltaDuracion,
        add_comm, add_assoc, add_left_comm]

/-- Cost of a wrapped chain: the wrappers' cost deltas (base cost is 0). -/
lemma mkChain_costo (p : PrestamoBase) (ws : List Decorador) :
    (mkChain p ws).obtener_costo_base = (ws.map Decorador.deltaCosto).sum := by
  induction ws with
  | nil => simp [mkChain, IPrestamo.obtener_costo_base, PrestamoBase.obtener_costo_base]
  | cons d ds ih =>
    cases d <;>
      simp [mkChain, IPrestamo.obtener_costo_base, ih, Decorador.deltaCosto,
        add_comm, add_assoc, add_left_comm]

/-- Closed form of the progressive accumulation loop. -/
lemma multaAcumulada_closed (n : ℕ) :
    multaAcumulada n = 3 * (n : ℚ) + (1 / 2) * ((n : ℚ) * ((n : ℚ) - 1) / 2) := by
  induction n with
  | zero => simp [multaAcumulada]
  | succ k ih =>
    rw [multaAcumulada, ih]
    push_cast
    ring

/-- With a strategy bound, `calcular_multa` returns the strategy's value on
`(dias_retraso, costo_base, recurso)` (for `dias_retraso ≤ 0` both sides are
`0`). -/
lemma calcular_multa_con_estrategia (p : PrestamoBase) (now : ℤ) (e : Estrategia)
    (he : p.estrategia_multa = some e) :
    p.calcular_multa now
      = .ok (e.calcular_multa now (p.calcular_dias_retraso now)
          p.obtener_costo_base p.recurso) := by
  unfold PrestamoBase.calcular_multa
  rw [he]
  dsimp only
  by_cases h : p.calcular_dias_retraso now ≤ 0
  · rw [if_pos h, estrategia_multa_nonpos e now _ _ _ h]
  · rw [if_neg h]

/-- With a strategy bound and a late loan, `agregar_multa` appends exactly one
MULTA item and returns the fine. -/
lemma agregar_multa_ok (f : Factura) (now : ℤ) (e : Estrategia)
    (he : f.prestamo_base.estrategia_multa = some e)
    (hd : 0 < f.prestamo_base.calcular_dias_retraso now) :
    f.agregar_multa now
      = ({ f with items := f.items
            ++ [itemMulta (f.prestamo_base.calcular_dias_retraso now)
                (e.calcular_multa now (f.prestamo_base.calcular_dias_retraso now)
                  f.prestamo_base.obtener_costo_base f.prestamo_base.recurso)
                e.obtener_nombre_estrategia] },
          .ok (e.calcular_multa now (f.prestamo_base.calcular_dias_retraso now)
              f.prestamo_base.obtener_costo_base f.prestamo_base.recurso)) := by
  unfold Factura.agregar_multa
  dsimp only
  rw [if_pos hd, calcular_multa_con_estrategia f.prestamo_base now e he]
  dsimp only
  rw [he]
  rfl

/-! ## Claim theorems -/

/-- C9: every concrete fine strategy is insensitive to the accumulated-cost
argument — with the same days late and resource, any two cost values give the
same fine. -/
theorem c9_costo_base_irrelevante (e : Estrategia) (now dias : ℤ) (c1 c2 : ℚ)
    (r : Recurso) :
    e.calcular_multa now dias c1 r = e.calcular_multa now dias c2 r := by
  cases e <;> rfl

/-- C8: every concrete strategy returns exactly `0` when `dias_retraso ≤ 0`,
and a loan with a bound strategy and zero days late has `calcular_multa`
succeeding with `0`. -/
theorem c8_sin_retraso_multa_cero (now : ℤ) :
    (∀ (e : Estrategia) (dias : ℤ) (costo : ℚ) (r : Recurso),
        dias ≤ 0 → e.calcular_multa now dias costo r = 0) ∧
    (∀ p : PrestamoBase, (∃ e, p.estrategia_multa = some e) →
        p.calcular_dias_retraso now = 0 → p.calcular_multa now = .ok 0) := by
  constructor
  · exact fun e dias costo r h => estrategia_multa_nonpos e now dias costo r h
  · rintro p ⟨e, he⟩ h0
    unfold PrestamoBase.calcular_multa
    rw [he]
    simp [h0]

/-- C8 witness: the student strategy at 0 days late, and the faculty-bound
base loan checked exactly on its due date. -/
theorem c8_witness :
    Estrategia.calcular_multa .estudiante 24 0 0 recursoW = 0 ∧
    pbDocente.calcular_multa 14 = .ok 0 :=
  ⟨(c8_sin_retraso_multa_cero 24).1 .estudiante 0 0 recursoW le_rfl,
    (c8_sin_retraso_multa_cero 14).2 pbDocente ⟨.docente, rfl⟩ (by decide)⟩

/-- C5: `calcular_multa` fails exactly when no strategy is bound; with a bound
strategy it returns the strategy's value on
`(dias_retraso, costo_base, recurso)`, and binding a strategy via
`establecer_estrategia_multa` makes the next call succeed. -/
theorem c5_error_solo_sin_estrategia (p : PrestamoBase) (now : ℤ) :
    (p.calcular_multa now = .error () ↔ p.estrategia_multa = none) ∧
    (∀ e, p.estrategia_multa = some e →
        p.calcular_multa now
          = .ok (e.calcular_multa now (p.calcular_dias_retraso now)
              p.obtener_costo_base p.recurso)) ∧
    (∀ e, (p.establecer_estrategia_multa e).calcular_multa now
          = .ok (e.calcular_multa now (p.calcular_dias_retraso now)
              p.obtener_costo_base p.recurso)) := by
  refine ⟨?_, fun e he => calcular_multa_con_estrategia p now e he, fun e => ?_⟩
  · cases he : p.estrategia_multa with
    | none => simp [PrestamoBase.calcular_multa, he]
    | some e => rw [calcular_multa_con_estrategia p now e he]; simp
  · rw [calcular_multa_con_estrategia (p.establecer_estrategia_multa e) now e rfl]
    rfl

/-- C5 witness: without a strategy the call errors; bound with the faculty
strategy it succeeds with the delegated value; rebinding makes an erroring
loan succeed. -/
theorem c5_witness :
    (pbSinEstrategia.calcular_multa 24 = .error () ↔
        pbSinEstrategia.estrategia_multa = none) ∧
    pbDocente.calcular_multa 24
      = .ok (Estrategia.docente.calcular_multa 24
          (pbDocente.calcular_dias_retraso 24)
          pbDocente.obtener_costo_base pbDocente.recurso) ∧
    (pbSinEstrategia.establecer_estrategia_multa .docente).calcular_multa 24
      = .ok (Estrategia.docente.calcular_multa 24
          (pbSinEstrategia.calcular_dias_retraso 24)
          pbSinEstrategia.obtener_costo_base pbSinEstrategia.recurso) :=
  ⟨(c5_error_solo_sin_estrategia pbSinEstrategia 24).1,
    (c5_error_solo_sin_estrategia pbDocente 24).2.1 .docente rfl,
    (c5_error_solo_sin_estrategia pbSinEstrategia 24).2.2 .docente⟩

/-- C7: the progressive strategy's iteratively accumulated fine equals the
arithmetic-series closed form `dias*3 + (1/2)*(dias*(dias-1)/2)` for every
`dias ≥ 1` (the rounding to two decimals is the identity here). -/
theorem c7_recargada_forma_cerrada (now dias : ℤ) (costo : ℚ) (r : Recurso)
    (h : 1 ≤ dias) :
    MultaRecargadaStrategy.calcular_multa now dias costo r
      = (dias : ℚ) * 3 + (1 / 2) * ((dias : ℚ) * ((dias : ℚ) - 1) / 2) := by
  unfold MultaRecargadaStrategy.calcular_multa
  rw [if_neg (by omega)]
  have h0 : (0 : ℤ) ≤ dias := by omega
  have hcast : ((dias.toNat : ℕ) : ℚ) = (dias : ℚ) := by
    exact_mod_cast Int.toNat_of_nonneg h0
  rw [multaAcumulada_closed, hcast]
  have hint : 100 * (3 * (dias : ℚ) + (1 / 2) * ((dias : ℚ) * ((dias : ℚ) - 1) / 2))
      = ((300 * dias + 25 * dias * (dias - 1) : ℤ) : ℚ) := by
    push_cast
    ring
  rw [round2_eq_self _ _ hint]
  ring

/-- C7 witness: three days late under the progressive strategy cost
`3.00 + 3.50 + 4.00 = 10.50`. -/
theorem c7_witness :
    MultaRecargadaStrategy.calcular_multa 0 3 0 recursoW = 21 / 2 := by
  rw [c7_recargada_forma_cerrada 0 3 0 recursoW (by decide)]
  norm_num

/-- C4: total duration and total cost of a wrapped loan are order-independent
sums of the wrappers' deltas, and the SMS + priority + insurance multiset over
a printed-book (14-day, cost-0) base gives duration 21 and cost 30 in any
order. -/
theorem c4_sumas_conmutativas (p : PrestamoBase) (ws ws' : List Decorador)
    (hperm : ws.Perm ws') :
    ((mkChain p ws).obtener_duracion_dias
        = p.obtener_duracion_dias + (ws.map Decorador.deltaDuracion).sum) ∧
    ((mkChain p ws).obtener_costo_base = (ws.map Decorador.deltaCosto).sum) ∧
    ((mkChain p ws).obtener_duracion_dias = (mkChain p ws').obtener_duracion_dias) ∧
    ((mkChain p ws).obtener_costo_base = (mkChain p ws').obtener_costo_base) ∧
    (∀ tel pr mc,
      ws.Perm [.notificacionSMS tel, .reservaPreferencial pr, .seguroExtravio mc] →
      p.recurso.tipo = .libroImpreso →
      (mkChain p ws).obtener_duracion_dias = 21 ∧
      (mkChain p ws).obtener_costo_base = 30) := by
  refine ⟨mkChain_duracion p ws, mkChain_costo p ws, ?_, ?_, ?_⟩
  · rw [mkChain_duracion, mkChain_duracion, (hperm.map Decorador.deltaDuracion).sum_eq]
  · rw [mkChain_costo, mkChain_costo, (hperm.map Decorador.deltaCosto).sum_eq]
  · intro tel pr mc h3 hlibro
    constructor
    · rw [mkChain_duracion, (h3.map Decorador.deltaDuracion).sum_eq]
      simp [PrestamoBase.obtener_duracion_dias, Recurso.obtener_duracion_prestamo_base,
        hlibro, Decorador.deltaDuracion]
    · rw [mkChain_costo, (h3.map Decorador.deltaCosto).sum_eq]
      norm_num [Decorador.deltaCosto]

/-- C4 witness: the concrete three-wrapper chains over `pbDocente` in two
orders both have duration 21 and cost 30. -/
theorem c4_witness :
    ((mkChain pbDocente wsW).obtener_duracion_dias = 21 ∧
      (mkChain pbDocente wsW).obtener_costo_base = 30) ∧
    ((mkChain pbDocente wsW2).obtener_duracion_dias = 21 ∧
      (mkChain pbDocente wsW2).obtener_costo_base = 30) :=
  ⟨(c4_sumas_conmutativas pbDocente wsW wsW2
      ((List.Perm.swap _ _ _).cons _)).2.2.2.2 "3001234567" 2 100
      (List.Perm.refl _) rfl,
    (c4_sumas_conmutativas pbDocente wsW2 wsW
      ((List.Perm.swap _ _ _).cons _)).2.2.2.2 "3001234567" 2 100
      ((List.Perm.swap _ _ _).cons _) rfl⟩

/-- C1: the claim `dueDate = loanStart + duration(chain)` fails on the code:
no decorator overrides `obtener_fecha_devolucion`, so a priority-reservation
chain over a 14-day book reports duration 21 while its due date stays at
`loanStart + 14`, equal to the undecorated base loan's due date. -/
theorem c1_fecha_devolucion_ignora_extension :
    (IPrestamo.decorado (.reservaPreferencial 1)
        (.base pbSinEstrategia)).obtener_duracion_dias = 21 ∧
    (IPrestamo.decorado (.reservaPreferencial 1)
        (.base pbSinEstrategia)).obtener_fecha_devolucion
      = pbSinEstrategia.fecha_prestamo + 14 ∧
    (IPrestamo.base pbSinEstrategia).obtener_fecha_devolucion
      = pbSinEstrategia.fecha_prestamo + 14 := by
  refine ⟨?_, ?_, ?_⟩ <;> decide

/-- C6 counterexample: at resource age exactly 1825 days (the 5-year point,
`antiguedad_años = 5`) with one day late, the age-tiered strategy charges
1.00, not the 2.50 the claim's "inclusive of the 5-year point" tier gives. -/
theorem c6_counterexample :
    MultaPorAntiguedadRecursoStrategy.calcular_multa 1825 1 0
        ⟨.libroImpreso, "Libro", 0, true⟩ = 1 ∧
    (1 : ℚ) ≠ 5 / 2 := by
  constructor
  · norm_num [MultaPorAntiguedadRecursoStrategy.calcular_multa,
      Recurso.calcular_antiguedad_dias, round2, round_eq]
  · norm_num

/-- C6 (amended): the age-tiered per-day rate is 5.00 for age `< 1` year,
2.50 for `1 ≤ age < 5` years, and 1.00 for age `≥ 5` years; for positive days
late the fine is the rate times the days, rounded to two decimals. -/
theorem c6_tarifa_por_antiguedad (now dias : ℤ) (costo : ℚ) (r : Recurso)
    (hd : 0 < dias) :
    (((r.calcular_antiguedad_dias now : ℚ) / 365 < 1) →
        MultaPorAntiguedadRecursoStrategy.calcular_multa now dias costo r
          = round2 (5 * (dias : ℚ))) ∧
    ((1 ≤ (r.calcular_antiguedad_dias now : ℚ) / 365) →
      ((r.calcular_antiguedad_dias now : ℚ) / 365 < 5) →
        MultaPorAntiguedadRecursoStrategy.calcular_multa now dias costo r
          = round2 ((5 / 2) * (dias : ℚ))) ∧
    ((5 ≤ (r.calcular_antiguedad_dias now : ℚ) / 365) →
        MultaPorAntiguedadRecursoStrategy.calcular_multa now dias costo r
          = round2 (1 * (dias : ℚ))) := by
  unfold MultaPorAntiguedadRecursoStrategy.calcular_multa
  rw [if_neg (by omega)]
  dsimp only
  refine ⟨fun h1 => ?_, fun h1 h5 => ?_, fun h5 => ?_⟩
  · rw [if_pos h1]
  · rw [if_neg (not_lt.mpr h1), if_pos h5]
  · rw [if_neg (not_lt.mpr (by linarith)), if_neg (not_lt.mpr h5)]

/-- C6 witness: age 182 days (about half a year) and 10 days late give
`round2(5 * 10) = 50.00`. -/
theorem c6_witness :
    MultaPorAntiguedadRecursoStrategy.calcular_multa 182 10 0 recursoW = 50 := by
  rw [(c6_tarifa_por_antiguedad 182 10 0 recursoW (by decide)).1
    (by norm_num [Recurso.calcular_antiguedad_dias, recursoW])]
  norm_num [round2, round_eq]

/-- C10: `agregar_multa` is atomic on error — with a late loan and no bound
strategy the call propagates the error and returns the invoice exactly as it
was, its item list untouched. -/
theorem c10_agregar_multa_atomico (f : Factura) (now : ℤ)
    (he : f.prestamo_base.estrategia_multa = none)
    (hd : 0 < f.prestamo_base.calcular_dias_retraso now) :
    f.agregar_multa now = (f, .error ()) ∧
    (f.agregar_multa now).1.items = f.items := by
  have hcalc : f.prestamo_base.calcular_multa now = .error () := by
    unfold PrestamoBase.calcular_multa
    rw [he]
  have hmain : f.agregar_multa now = (f, .error ()) := by
    unfold Factura.agregar_multa
    dsimp only
    rw [if_pos hd, hcalc]
  exact ⟨hmain, by rw [hmain]⟩

/-- C10 witness: the invoice over the strategy-less loan, 10 days late. -/
theorem c10_witness :
    facturaSinEstrategia.agregar_multa 24 = (facturaSinEstrategia, .error ()) :=
  (c10_agregar_multa_atomico facturaSinEstrategia 24 rfl (by decide)).1

/-- C2 counterexample: on an invoice whose loan is 10 days late under the
faculty strategy, a second `agregar_multa` appends a second MULTA item and
doubles the subtotal — the call is not idempotent. -/
theorem c2_counterexample :
    (facturaDocente.agregar_multa 24).1.items.length = 1 ∧
    ((facturaDocente.agregar_multa 24).1.agregar_multa 24).1.items.length = 2 ∧
    (facturaDocente.agregar_multa 24).1.calcular_subtotal = 7 ∧
    ((facturaDocente.agregar_multa 24).1.agregar_multa 24).1.calcular_subtotal
      = 14 := by
  have h1 := agregar_multa_ok facturaDocente 24 .docente rfl (by decide)
  have h2 := agregar_multa_ok (facturaDocente.agregar_multa 24).1 24 .docente
    (by rw [h1]; rfl) (by rw [h1]; decide)
  rw [h2, h1]
  have hitems : facturaDocente.items = [] := rfl
  have hmulta : Estrategia.docente.calcular_multa 24
      (facturaDocente.prestamo_base.calcular_dias_retraso 24)
      facturaDocente.prestamo_base.obtener_costo_base
      facturaDocente.prestamo_base.recurso = 7 := by
    norm_num [Estrategia.calcular_multa, MultaDocenteStrategy.calcular_multa,
      facturaDocente, pbDocente, Factura.nueva, PrestamoBase.calcular_dias_retraso,
      PrestamoBase.obtener_fecha_devolucion, PrestamoBase.obtener_duracion_dias,
      Recurso.obtener_duracion_prestamo_base, recursoW, round2, round_eq]
  simp [Factura.calcular_subtotal, ItemFactura.subtotal, itemMulta, hitems, hmulta]
  norm_num

/-- C2 (amended): `agregar_multa` on a late loan with a bound strategy
appends one more MULTA item on every call — after the first call there is one
fine item, after the second there are two identical ones and the subtotal has
grown by the fine again. -/
theorem c2_agregar_multa_no_idempotente (f : Factura) (now : ℤ) (e : Estrategia)
    (he : f.prestamo_base.estrategia_multa = some e)
    (hd : 0 < f.prestamo_base.calcular_dias_retraso now) :
    (f.agregar_multa now).1.items
        = f.items ++ [itemMulta (f.prestamo_base.calcular_dias_retraso now)
            (e.calcular_multa now (f.prestamo_base.calcular_dias_retraso now)
              f.prestamo_base.obtener_costo_base f.prestamo_base.recurso)
            e.obtener_nombre_estrategia] ∧
    ((f.agregar_multa now).1.agregar_multa now).1.items
        = f.items ++ [itemMulta (f.prestamo_base.calcular_dias_retraso now)
            (e.calcular_multa now (f.prestamo_base.calcular_dias_retraso now)
              f.prestamo_base.obtener_costo_base f.prestamo_base.recurso)
            e.obtener_nombre_estrategia,
          itemMulta (f.prestamo_base.calcular_dias_retraso now)
            (e.calcular_multa now (f.prestamo_base.calcular_dias_retraso now)
              f.prestamo_base.obtener_costo_base f.prestamo_base.recurso)
            e.obtener_nombre_estrategia] ∧
    ((f.agregar_multa now).1.agregar_multa now).1.calcular_subtotal
        = f.calcular_subtotal
          + 2 * (e.calcular_multa now (f.prestamo_base.calcular_dias_retraso now)
              f.prestamo_base.obtener_costo_base f.prestamo_base.recurso) := by
  have h1 := agregar_multa_ok f now e he hd
  have h2 := agregar_multa_ok (f.agregar_multa now).1 now e
    (by rw [h1]; exact he) (by rw [h1]; exact hd)
  refine ⟨by rw [h1], ?_, ?_⟩
  · rw [h2, h1]
    dsimp only
    simp
  · rw [h2, h1]
    dsimp only
    simp [Factura.calcular_subtotal, ItemFactura.subtotal, itemMulta]
    ring

/-- C2 witness: the concrete faculty invoice, 10 days late, after two
`agregar_multa` calls. -/
theorem c2_witness :
    ((facturaDocente.agregar_multa 24).1.agregar_multa 24).1.calcular_subtotal
      = facturaDocente.calcular_subtotal
        + 2 * (Estrategia.docente.calcular_multa 24
            (facturaDocente.prestamo_base.calcular_dias_retraso 24)
            facturaDocente.prestamo_base.obtener_costo_base
            facturaDocente.prestamo_base.recurso) :=
  (c2_agregar_multa_no_idempotente facturaDocente 24 .docente rfl (by decide)).2.2

/-- C3 counterexample: building a printed book from a payload with every
creation field missing does not abort — the resource is created with `none`
fields (acquisition date defaulted to `now`) and is appended to the
inventory. -/
theorem c3_counterexample :
    (GestorDeInventario.agregar_recurso_con_fabrica ⟨[]⟩ 100
        (.libro ⟨none, none, none, none, none, none⟩)).1.recursos
      = [.libro none none none 100 none none] ∧
    (GestorDeInventario.agregar_recurso_con_fabrica ⟨[]⟩ 100
        (.libro ⟨none, none, none, none, none, none⟩)).2
      = .libro none none none 100 none none :=
  ⟨rfl, rfl⟩

/-- C3 (amended): the builders never fail — `agregar_recurso_con_fabrica`
always creates the resource from whatever payload it gets (missing fields
stay `none`) and always appends it to the inventory. -/
theorem c3_fabrica_sin_validacion (g : GestorDeInventario) (now : ℤ)
    (llamada : LlamadaFabrica) :
    (g.agregar_recurso_con_fabrica now llamada).1.recursos
      = g.recursos ++ [registrar_recurso now llamada] ∧
    (g.agregar_recurso_con_fabrica now llamada).2 = registrar_recurso now llamada :=
  ⟨rfl, rfl⟩

end BibliotecaUcc
